import Mathlib

/-!
Verification development for the secure-messenger-desktop repository.

The embedding below models, over lists and explicit state records:
* `src/server/database.ts` — the SQLite-backed store (tables as lists of rows
  in rowid/insertion order; queries as filter/sort/drop/take; the
  better-sqlite3 transaction of `addMessage`);
* `src/server/websocket.ts` — the synthetic message emitter tick;
* `src/store/index.ts` — the Redux connection/chats slices;
* `src/hooks/useWebSocket.ts` — the `WebSocketClient` state machine
  (socket, heartbeat and reconnect timers, dispatched connection state).

Randomness (`Math.random()`, `uuidv4()`, `ORDER BY RANDOM()`) is modelled by
explicit generator parameters; timers are modelled by explicit "timer pending"
fields plus step functions that run the corresponding callback.
-/

namespace SecureMessenger

/-- Descending order on an integer sort key: `a` may come before `b` when
`b`'s key is at most `a`'s. Used to model both SQL `ORDER BY ... DESC`
(ties left in rowid order, as the queries carry no secondary sort key) and
the stable JS `Array.sort((a, b) => b.key - a.key)`. -/
def keyDesc (key : α → Int) : α → α → Prop := fun a b => key b ≤ key a

instance (key : α → Int) : DecidableRel (keyDesc key) := by
  intro a b
  unfold keyDesc
  infer_instance

/-- Stable descending sort by an integer key (insertion sort; any stable
sort produces the same list). -/
def sortByDesc (key : α → Int) (l : List α) : List α :=
  List.insertionSort (keyDesc key) l

theorem keyDesc_total (key : α → Int) (a b : α) : keyDesc key a b ∨ keyDesc key b a :=
  le_total (key b) (key a)

theorem keyDesc_trans (key : α → Int) {a b c : α} :
    keyDesc key a b → keyDesc key b c → keyDesc key a c :=
  fun h1 h2 => le_trans h2 h1

theorem sortByDesc_pairwise (key : α → Int) (l : List α) :
    (sortByDesc key l).Pairwise (keyDesc key) := by
  haveI : IsTotal α (keyDesc key) := ⟨keyDesc_total key⟩
  haveI : IsTrans α (keyDesc key) := ⟨fun _ _ _ => keyDesc_trans key⟩
  exact List.sorted_insertionSort (keyDesc key) l

theorem sortByDesc_perm (key : α → Int) (l : List α) : (sortByDesc key l).Perm l :=
  List.perm_insertionSort (keyDesc key) l

theorem sortByDesc_length (key : α → Int) (l : List α) :
    (sortByDesc key l).length = l.length :=
  (sortByDesc_perm key l).length_eq

theorem mem_sortByDesc (key : α → Int) {a : α} {l : List α} :
    a ∈ sortByDesc key l ↔ a ∈ l :=
  (sortByDesc_perm key l).mem_iff

/-- ASCII-insensitive containment test for `hay` starting with `pat`,
over character lists. -/
def startsWithChars : List Char → List Char → Bool
  | _, [] => true
  | [], _ :: _ => false
  | h :: hs, p :: ps => (h == p) && startsWithChars hs ps

/-- Containment of `pat` in `hay` as character lists. -/
def containsChars : List Char → List Char → Bool
  | [], pat => pat.isEmpty
  | h :: hs, pat => startsWithChars (h :: hs) pat || containsChars hs pat

/-- Case-insensitive (ASCII) containment of `q` in `body` — the spec's
notion "body contains q case-insensitively", used to compare the query's
behaviour against the spec's words. -/
def containsCI (body q : String) : Bool :=
  containsChars (body.data.map Char.toLower) (q.data.map Char.toLower)

/-- Fuel-indexed interpreter of SQLite `LIKE` (no `ESCAPE` clause) matching
pattern `pat` against text `hay`: `'%'` matches any sequence of characters
(including none), `'_'` matches exactly one character, and every other
pattern character matches one text character up to ASCII case folding
(SQLite folds case for ASCII only, as `Char.toLower` does). Each recursive
call decreases `pat.length + hay.length`, so any fuel above that sum
computes the full semantics. -/
def likeFuel : Nat → List Char → List Char → Bool
  | 0, _, _ => false
  | _ + 1, [], hay => hay.isEmpty
  | f + 1, c :: ps, hay =>
    if c == '%' then
      likeFuel f ps hay ||
        (match hay with
         | [] => false
         | _ :: hs => likeFuel f (c :: ps) hs)
    else
      match hay with
      | [] => false
      | h :: hs =>
        if c == '_' then likeFuel f ps hs
        else (h.toLower == c.toLower) && likeFuel f ps hs

/-- Expression `body LIKE pat`, run with sufficient fuel. The code binds the
raw query into the pattern with no escaping, so wildcards inside the query
keep their meaning. -/
def sqliteLike (body pat : String) : Bool :=
  likeFuel (pat.data.length + body.data.length + 1) pat.data body.data

/-- Predicate: the query contains neither `LIKE` wildcard, so the pattern
`'%' || q || '%'` treats it as a literal substring. -/
def wildcardFree (q : String) : Bool :=
  q.data.all (fun c => !(c == '%') && !(c == '_'))

theorem startsWithChars_nil (l : List Char) : startsWithChars l [] = true := by
  cases l <;> rfl

theorem startsWithChars_containsChars {l p : List Char}
    (h : startsWithChars l p = true) : containsChars l p = true := by
  cases l with
  | nil =>
      cases p with
      | nil => rfl
      | cons c cs => simp [startsWithChars] at h
  | cons x xs => simp [containsChars, h]

theorem likeFuel_percent (hay : List Char) :
    ∀ f, 1 + hay.length < f → likeFuel f ['%'] hay = true := by
  induction hay with
  | nil =>
      intro f hf
      obtain ⟨f1, rfl⟩ : ∃ f1, f = f1 + 1 := ⟨f - 1, by omega⟩
      obtain ⟨f2, rfl⟩ : ∃ f2, f1 = f2 + 1 := ⟨f1 - 1, by omega⟩
      simp [likeFuel]
  | cons h hs ih =>
      intro f hf
      obtain ⟨f1, rfl⟩ : ∃ f1, f = f1 + 1 := ⟨f - 1, by omega⟩
      have hrec := ih f1 (by simp at hf ⊢; omega)
      simp [likeFuel, hrec]

theorem likeFuel_double_percent (hay : List Char) :
    ∀ f, 2 + hay.length < f → likeFuel f ['%', '%'] hay = true := by
  intro f hf
  obtain ⟨f1, rfl⟩ : ∃ f1, f = f1 + 1 := ⟨f - 1, by omega⟩
  have hrec := likeFuel_percent hay f1 (by omega)
  simp [likeFuel, hrec]

theorem likeFuel_literal_prefix (q : List Char)
    (hq : q.all (fun c => !(c == '%') && !(c == '_')) = true) :
    ∀ hay f, (q ++ ['%']).length + hay.length < f →
      likeFuel f (q ++ ['%']) hay = true →
      startsWithChars (hay.map Char.toLower) (q.map Char.toLower) = true := by
  induction q with
  | nil =>
      intro hay f hf hm
      exact startsWithChars_nil _
  | cons c q' ih =>
      intro hay f hf hm
      rw [List.all_cons, Bool.and_eq_true] at hq
      have hc12 := Bool.and_eq_true _ _ |>.mp hq.1
      have hc1 : (c == '%') = false := by simpa using hc12.1
      have hc2 : (c == '_') = false := by simpa using hc12.2
      obtain ⟨f1, rfl⟩ : ∃ f1, f = f1 + 1 := ⟨f - 1, by omega⟩
      rw [List.cons_append] at hm
      simp only [likeFuel, hc1, Bool.false_eq_true, if_false] at hm
      cases hay with
      | nil => simp at hm
      | cons h hs =>
          simp only [hc2, Bool.false_eq_true, if_false, Bool.and_eq_true] at hm
          have hrec := ih hq.2 hs f1 (by simp at hf ⊢; omega) hm.2
          simp [startsWithChars, hm.1, hrec]

theorem likeFuel_percent_literal (q : List Char)
    (hq : q.all (fun c => !(c == '%') && !(c == '_')) = true) :
    ∀ hay f, ('%' :: (q ++ ['%'])).length + hay.length < f →
      likeFuel f ('%' :: (q ++ ['%'])) hay = true →
      containsChars (hay.map Char.toLower) (q.map Char.toLower) = true := by
  intro hay
  induction hay with
  | nil =>
      intro f hf hm
      obtain ⟨f1, rfl⟩ : ∃ f1, f = f1 + 1 := ⟨f - 1, by omega⟩
      simp only [likeFuel] at hm
      simp at hm
      have hpre := likeFuel_literal_prefix q hq [] f1 (by simp at hf ⊢; omega) hm
      cases q with
      | nil => simp [containsChars]
      | cons c q' => simp [startsWithChars] at hpre
  | cons h hs ih =>
      intro f hf hm
      obtain ⟨f1, rfl⟩ : ∃ f1, f = f1 + 1 := ⟨f - 1, by omega⟩
      simp only [likeFuel] at hm
      simp [Bool.or_eq_true] at hm
      rcases hm with hm1 | hm2
      · have hpre := likeFuel_literal_prefix q hq (h :: hs) f1 (by simp at hf ⊢; omega) hm1
        exact startsWithChars_containsChars hpre
      · have hrec := ih f1 (by simp at hf ⊢; omega) hm2
        simp [containsChars, hrec]

theorem sqliteLike_literal_contains (body q : String)
    (hq : wildcardFree q = true)
    (hm : sqliteLike body ("%" ++ q ++ "%") = true) : containsCI body q = true := by
  have hdata : ("%" ++ q ++ "%").data = '%' :: (q.data ++ ['%']) := by
    simp [String.data_append]
  unfold sqliteLike at hm
  rw [hdata] at hm
  unfold wildcardFree at hq
  unfold containsCI
  exact likeFuel_percent_literal q.data hq body.data _ (Nat.lt_succ_self _) hm

theorem sqliteLike_empty_query (body : String) :
    sqliteLike body ("%" ++ "" ++ "%") = true := by
  have h : ("%" ++ "" ++ "%") = "%%" := rfl
  rw [h]
  unfold sqliteLike
  exact likeFuel_double_percent body.data _
    (by have h2 : ("%%" : String).data.length = 2 := rfl; omega)

namespace Database

/-- Row of the `chats` table (src/server/database.ts schema). -/
structure Chat where
  id : String
  title : String
  lastMessageAt : Int
  unreadCount : Nat
  createdAt : Int
deriving Repr, DecidableEq

/-- Row of the `messages` table. -/
structure Message where
  id : String
  chatId : String
  ts : Int
  sender : String
  body : String
  createdAt : Int
deriving Repr, DecidableEq

/-- Database state: both tables, rows kept in rowid (insertion) order. -/
structure DB where
  chats : List Chat
  messages : List Message
deriving Repr, DecidableEq

/-- Freshly created database (after the CREATE TABLE statements). -/
def emptyDB : DB := ⟨[], []⟩

/-- Lookup of a chat row by primary key (first match in rowid order). -/
def chatById (db : DB) (chatId : String) : Option Chat :=
  db.chats.find? (fun c => c.id == chatId)

/-- Predicate: no message row carries the given primary key yet. -/
def freshMessageId (db : DB) (newId : String) : Prop :=
  ∀ m ∈ db.messages, m.id ≠ newId

instance (db : DB) (newId : String) : Decidable (freshMessageId db newId) := by
  unfold freshMessageId
  infer_instance

/-- First statement of `addMessage`'s transaction:
`INSERT INTO messages (id, chatId, ts, sender, body, createdAt) VALUES (...)`.
The insert throws (aborting the transaction) exactly when the primary key
is already taken; otherwise the row is appended to the table. The generated
`uuidv4()` and the `Date.now()` for `createdAt` are the `newId`/`now`
parameters. -/
def insertMessageRow (db : DB) (chatId sender body : String) (ts : Int)
    (newId : String) (now : Int) : Option DB :=
  if db.messages.any (fun m => m.id == newId) then none
  else some { db with messages :=
    db.messages ++ [{ id := newId, chatId := chatId, ts := ts, sender := sender,
                      body := body, createdAt := now }] }

/-- Second statement of `addMessage`'s transaction:
`UPDATE chats SET lastMessageAt = ?, unreadCount = unreadCount + 1 WHERE id = ?`.
Updates every row matching the key (a no-op when the chat is absent). -/
def updateChatOnMessage (db : DB) (chatId : String) (ts : Int) : DB :=
  { db with chats := db.chats.map (fun c =>
      if c.id == chatId then { c with lastMessageAt := ts, unreadCount := c.unreadCount + 1 }
      else c) }

/-- Committed result of `addMessage(chatId, sender, body, ts)`
(src/server/database.ts): the two statements run inside one
`database.transaction`; if the insert throws, the transaction rolls back and
the database is unchanged. -/
def addMessage (db : DB) (chatId sender body : String) (ts : Int)
    (newId : String) (now : Int) : DB :=
  match insertMessageRow db chatId sender body ts newId now with
  | none => db
  | some db1 => updateChatOnMessage db1 chatId ts

/-- Interruption points of the `addMessage` transaction observed by a
reader: the call may stop before the insert, between the two statements, or
run to commit. -/
inductive TxStop where
  | beforeInsert
  | betweenStatements
  | committed
deriving Repr, DecidableEq

/-- State a reader observes when the `addMessage` call stops at `stop`.
better-sqlite3 wraps the transaction function in `BEGIN`/`COMMIT`: writes of
an uncommitted transaction are invisible to readers and rolled back, so every
stop before `committed` leaves the pre-call state observable. -/
def addMessageObservable (db : DB) (chatId sender body : String) (ts : Int)
    (newId : String) (now : Int) : TxStop → DB
  | TxStop.committed => addMessage db chatId sender body ts newId now
  | _ => db

/-- Hypothetical partially-applied state — the message row inserted but the
chat row not yet updated — which a non-transactional implementation would
expose between the two statements. -/
def insertOnlyState (db : DB) (chatId sender body : String) (ts : Int)
    (newId : String) (now : Int) : DB :=
  { db with messages :=
    db.messages ++ [{ id := newId, chatId := chatId, ts := ts, sender := sender,
                      body := body, createdAt := now }] }

/-- Query of `getChats(limit, offset)`:
`SELECT id, title, lastMessageAt, unreadCount FROM chats
 ORDER BY lastMessageAt DESC LIMIT ? OFFSET ?`.
Rows with equal `lastMessageAt` stay in rowid order (the query has no
secondary sort key); the model returns whole rows — the projection in the
SELECT list does not affect the claims. -/
def getChats (db : DB) (limit offset : Nat) : List Chat :=
  ((sortByDesc (fun c => c.lastMessageAt) db.chats).drop offset).take limit

/-- Query of `getMessages(chatId, limit, offset)`:
`SELECT ... FROM messages WHERE chatId = ? ORDER BY ts DESC LIMIT ? OFFSET ?`. -/
def getMessages (db : DB) (chatId : String) (limit offset : Nat) : List Message :=
  ((sortByDesc (fun m => m.ts)
      (db.messages.filter (fun m => m.chatId == chatId))).drop offset).take limit

/-- Query of `searchMessages(chatId, query)`:
`SELECT ... FROM messages WHERE chatId = ? AND body LIKE '%' || ? || '%'
 ORDER BY ts DESC LIMIT 50`. The query string is bound into the pattern
unescaped, so `%` and `_` inside it act as `LIKE` wildcards. -/
def searchMessages (db : DB) (chatId q : String) : List Message :=
  (sortByDesc (fun m => m.ts)
      (db.messages.filter
        (fun m => m.chatId == chatId && sqliteLike m.body ("%" ++ q ++ "%")))).take 50

/-- Apostrophe character, written via its code point. -/
def apos : String := String.singleton (Char.ofNat 39)

/-- Sender candidates of `seedData`. -/
def seedSenders : List String := ["Alice", "Bob", "Charlie", "Diana", "Eve"]

/-- Body candidates of `seedData` (the third entry is "Let s sync up
tomorrow" with an apostrophe in place of the blank). -/
def seedMessageTexts : List String :=
  ["Hey, how are you?",
   "Just finished the project",
   "Let" ++ apos ++ "s sync up tomorrow",
   "Did you see the update?",
   "Looks good to me",
   "I agree completely",
   "When are you free?",
   "Can we schedule a meeting?",
   "Thanks for the help",
   "No problem, happy to assist",
   "See you at 3pm",
   "Perfect, see you then",
   "What do you think?",
   "Sounds like a plan",
   "Let me know ASAP"]

/-- Random draws consumed by one `seedData` call, made explicit:
`chatUuid i` is the `uuidv4()` of the i-th chat, `msgUuid i j` the one of its
j-th message, `extraMsgs i` models `Math.floor(Math.random() * 50)` in the
per-chat message count, `senderIdx`/`bodyIdx` model the uniform picks into
the candidate lists, and `tsBack i j` models `Math.random() * 7*24*60*60*1000`
subtracted from `now`. -/
structure SeedRand where
  chatUuid : Nat → String
  msgUuid : Nat → Nat → String
  extraMsgs : Nat → Nat
  senderIdx : Nat → Nat → Nat
  bodyIdx : Nat → Nat → Nat
  tsBack : Nat → Nat → Nat

/-- Chat row inserted by `seedData` for chat index `i`
(`INSERT INTO chats ... VALUES (uuid, title, now, 0, now)`). -/
def seedChatRow (r : SeedRand) (now : Int) (i : Nat) : Chat :=
  { id := r.chatUuid i, title := "Chat " ++ toString (i + 1),
    lastMessageAt := now, unreadCount := 0, createdAt := now }

/-- Message rows inserted by `seedData` for chat index `i`: the per-chat
count is `Math.floor(Math.random() * 50) + 100`. -/
def seedMessagesFor (r : SeedRand) (now : Int) (i : Nat) : List Message :=
  (List.range (r.extraMsgs i + 100)).map (fun j =>
    { id := r.msgUuid i j, chatId := r.chatUuid i,
      ts := now - (r.tsBack i j : Int),
      sender := seedSenders.getD (r.senderIdx i j) "",
      body := seedMessageTexts.getD (r.bodyIdx i j) "",
      createdAt := now })

/-- Query `SELECT MAX(ts) as ts FROM messages WHERE chatId = ?`. -/
def maxTsFor (msgs : List Message) (chatId : String) : Option Int :=
  ((msgs.filter (fun m => m.chatId == chatId)).map (fun m => m.ts)).max?

/-- Single step of `seedData`'s fix-up loop: `if (lastMessage?.ts)` (a JS
truthiness test, so a NULL max and a zero max are both skipped) then
`UPDATE chats SET lastMessageAt = ? WHERE id = ?`. -/
def seedFixChat (db : DB) (c : Chat) : DB :=
  match maxTsFor db.messages c.id with
  | some t =>
      if t = 0 then db
      else { db with chats := db.chats.map (fun x =>
        if x.id == c.id then { x with lastMessageAt := t } else x) }
  | none => db

/-- Fix-up loop of `seedData` over the freshly inserted chats. -/
def seedFixChats (db : DB) : List Chat → DB
  | [] => db
  | c :: cs => seedFixChats (seedFixChat db c) cs

/-- Operation `seedData()` (src/server/database.ts): inside one transaction,
inserts 200 chats with 100–150 messages each, then updates each new chat's
`lastMessageAt` to the maximum `ts` of its messages. It contains no
emptiness check. -/
def seedData (db : DB) (r : SeedRand) (now : Int) : DB :=
  let newChats := (List.range 200).map (seedChatRow r now)
  let newMessages := ((List.range 200).map (seedMessagesFor r now)).flatten
  seedFixChats
    { chats := db.chats ++ newChats, messages := db.messages ++ newMessages }
    newChats

/-- Operation `initializeDatabase()`: creates the tables (a no-op on the
model state), then seeds only when `SELECT COUNT(*) FROM chats` is zero. -/
def initializeDatabase (db : DB) (r : SeedRand) (now : Int) : DB :=
  if db.chats.length = 0 then seedData db r now else db

theorem seedFixChat_chats_length (db : DB) (c : Chat) :
    (seedFixChat db c).chats.length = db.chats.length := by
  unfold seedFixChat
  cases maxTsFor db.messages c.id with
  | none => rfl
  | some t =>
      by_cases h : t = 0
      · simp [h]
      · simp [h]

theorem seedFixChats_chats_length (cs : List Chat) :
    ∀ db : DB, (seedFixChats db cs).chats.length = db.chats.length := by
  induction cs with
  | nil => intro db; rfl
  | cons c cs ih =>
      intro db
      rw [seedFixChats, ih, seedFixChat_chats_length]

theorem seedData_chats_length (db : DB) (r : SeedRand) (now : Int) :
    (seedData db r now).chats.length = db.chats.length + 200 := by
  unfold seedData
  rw [seedFixChats_chats_length]
  simp

end Database

-- Model of the synthetic message emitter of `src/server/websocket.ts`.
namespace Websocket

/-- Sender candidates of `startMessageEmitter`. -/
def senders : List String := ["Alice", "Bob", "Charlie", "Diana", "Eve"]

/-- Body candidates of `startMessageEmitter` (the third entry carries an
apostrophe, as in `seedMessageTexts`). -/
def messageTexts : List String :=
  ["Hey, how are you?",
   "Just finished the project",
   "Let" ++ Database.apos ++ "s sync up tomorrow",
   "Did you see the update?",
   "Looks good to me",
   "I agree completely",
   "When are you free?",
   "Can we schedule a meeting?",
   "Thanks for the help",
   "No problem, happy to assist"]

/-- Wire payload `{type: 'newMessage', chatId, messageId, ts, sender, body}`
broadcast by the emitter and consumed by the client. -/
structure NewMessageEvent where
  chatId : String
  messageId : String
  ts : Int
  sender : String
  body : String
deriving Repr, DecidableEq

/-- One successful tick of `startMessageEmitter`: `chatId` is the chat the
`ORDER BY RANDOM() LIMIT 1` query picked (callers supply a chat of `db`);
`si`/`bi` are the uniform picks into the candidate lists; `uuid` is the
process's uuidv4 stream, of which the tick consumes `uuid k` for the
broadcast `messageId` and `addMessage` internally consumes `uuid (k+1)` for
the inserted row; `now` is `Date.now()`. Returns the database after
`addMessage` together with the broadcast event. -/
def emitterTick (db : Database.DB) (uuid : Nat → String) (k : Nat)
    (chatId : String) (si bi : Nat) (now : Int) :
    Database.DB × NewMessageEvent :=
  let sender := senders.getD si ""
  let body := messageTexts.getD bi ""
  let messageId := uuid k
  let db1 := Database.addMessage db chatId sender body now (uuid (k + 1)) now
  (db1, { chatId := chatId, messageId := messageId, ts := now,
          sender := sender, body := body })

end Websocket

-- Model of the Redux store of `src/store/index.ts`.
namespace Store

/-- Connection state tag `'connected' | 'reconnecting' | 'offline'`. -/
inductive ConnectionState where
  | connected
  | reconnecting
  | offline
deriving Repr, DecidableEq

/-- State of the `connection` slice. -/
structure ConnectionSliceState where
  state : ConnectionState
  reconnectAttempt : Nat
  backoffDelay : Nat
deriving Repr, DecidableEq

/-- Initial state of the `connection` slice. -/
def connectionInitialState : ConnectionSliceState :=
  { state := ConnectionState.offline, reconnectAttempt := 0, backoffDelay := 1000 }

/-- Reducer `setConnectionState`: stores the payload and, when it is
`'connected'`, resets the attempt counter and backoff. -/
def setConnectionState (s : ConnectionSliceState) (payload : ConnectionState) :
    ConnectionSliceState :=
  if payload = ConnectionState.connected then
    { state := payload, reconnectAttempt := 0, backoffDelay := 1000 }
  else { s with state := payload }

/-- Reducer `incrementReconnectAttempt`:
`reconnectAttempt += 1; backoffDelay = min(1000 * 2^(reconnectAttempt - 1), 30000)`
(the exponent reads the already-incremented counter). -/
def incrementReconnectAttempt (s : ConnectionSliceState) : ConnectionSliceState :=
  let attempt := s.reconnectAttempt + 1
  { s with reconnectAttempt := attempt,
           backoffDelay := min (1000 * 2 ^ (attempt - 1)) 30000 }

/-- Renderer-side chat record (interface `Chat` of the store; it has no
`createdAt`). -/
structure Chat where
  id : String
  title : String
  lastMessageAt : Int
  unreadCount : Nat
deriving Repr, DecidableEq

/-- Renderer-side message record. -/
structure Message where
  id : String
  chatId : String
  ts : Int
  sender : String
  body : String
deriving Repr, DecidableEq

/-- Mutation of the first chat whose `id` matches, as
`state.items.find(...)` followed by a field assignment does. -/
def updateFirstChatBy (chatId : String) (f : Chat → Chat) : List Chat → List Chat
  | [] => []
  | c :: cs => if c.id == chatId then f c :: cs else c :: updateFirstChatBy chatId f cs

/-- Reducer `updateChatUnreadCount`: finds the chat and overwrites its
`unreadCount` with the payload (no-op when absent). -/
def updateChatUnreadCount (items : List Chat) (chatId : String)
    (unreadCount : Nat) : List Chat :=
  updateFirstChatBy chatId (fun c => { c with unreadCount := unreadCount }) items

/-- Reducer `updateChatLastMessage`: when the chat is found, sets its
`lastMessageAt` to the payload `ts` and re-sorts the whole collection with
the stable JS sort `(a, b) => b.lastMessageAt - a.lastMessageAt`. -/
def updateChatLastMessage (items : List Chat) (chatId : String) (ts : Int) :
    List Chat :=
  if items.any (fun c => c.id == chatId) then
    sortByDesc (fun c => c.lastMessageAt)
      (updateFirstChatBy chatId (fun c => { c with lastMessageAt := ts }) items)
  else items

/-- State of the `chats` slice. -/
structure ChatsSliceState where
  items : List Chat
  selectedId : Option String
  isLoading : Bool
  offset : Nat
  hasMore : Bool
deriving Repr, DecidableEq

/-- Reducer `appendChats`: appends the fetched page and recomputes
`hasMore = action.payload.length >= 50`. -/
def appendChats (s : ChatsSliceState) (payload : List Chat) : ChatsSliceState :=
  { s with items := s.items ++ payload,
           offset := s.offset + payload.length,
           hasMore := decide (50 ≤ payload.length),
           isLoading := false }

/-- State of the `messages` slice. -/
structure MessagesSliceState where
  items : List Message
  isLoading : Bool
  offset : Nat
  hasMore : Bool
deriving Repr, DecidableEq

/-- Reducer `prependMessages`: prepends the reversed fetched page and
recomputes `hasMore = action.payload.length >= 50`. -/
def prependMessages (s : MessagesSliceState) (payload : List Message) :
    MessagesSliceState :=
  { s with items := payload.reverse ++ s.items,
           offset := s.offset + payload.length,
           hasMore := decide (50 ≤ payload.length),
           isLoading := false }

end Store

-- Model of the `WebSocketClient` class of `src/hooks/useWebSocket.ts`.
namespace Hooks

/-- Field `maxReconnectAttempts = 10`. -/
def maxReconnectAttempts : Nat := 10

/-- JavaScript `x || d` applied to an optional number: `undefined` and `0`
are falsy. -/
def jsNumOr (a : Option Nat) (d : Nat) : Nat :=
  match a with
  | some n => if n = 0 then d else n
  | none => d

/-- State of one `WebSocketClient` instance together with the connection
slice it dispatches to. `wsAttached` is `this.ws !== null`; `socketLive`
says the attached socket has not yet been closed; `closePending` says a
close event is queued for the handlers installed on the socket (installing
handlers is never undone, so the event fires even after `this.ws = null`);
`heartbeatTimer`/`reconnectTimer` are the pending timeouts, the latter with
its delay in milliseconds. -/
structure WebSocketClient where
  wsAttached : Bool
  socketLive : Bool
  closePending : Bool
  heartbeatTimer : Bool
  reconnectTimer : Option Nat
  reconnectAttempt : Nat
  redux : Store.ConnectionSliceState
deriving Repr, DecidableEq

/-- Method `clearHeartbeat()`. -/
def clearHeartbeat (s : WebSocketClient) : WebSocketClient :=
  { s with heartbeatTimer := false }

/-- Method `resetHeartbeat()`: re-arms the 10-second heartbeat timeout. -/
def resetHeartbeat (s : WebSocketClient) : WebSocketClient :=
  { s with heartbeatTimer := true }

/-- Method `scheduleReconnect()`: returns unchanged once
`reconnectAttempt >= maxReconnectAttempts`; otherwise increments the local
counter, dispatches `incrementReconnectAttempt`, and arms the reconnect
timeout with delay `Math.min(1000 * Math.pow(2, reconnectAttempt - 1), 30000)`
computed from the incremented counter. -/
def scheduleReconnect (s : WebSocketClient) : WebSocketClient :=
  if maxReconnectAttempts ≤ s.reconnectAttempt then s
  else
    let att := s.reconnectAttempt + 1
    { s with reconnectAttempt := att,
             redux := Store.incrementReconnectAttempt s.redux,
             reconnectTimer := some (min (1000 * 2 ^ (att - 1)) 30000) }

/-- Method `disconnect()`: clears the heartbeat timeout, clears the
reconnect timeout, and closes the socket if attached, setting
`this.ws = null`. Closing a live socket queues its close event for the
still-installed `onclose` handler; no state is dispatched. -/
def disconnect (s : WebSocketClient) : WebSocketClient :=
  let s1 := { clearHeartbeat s with reconnectTimer := none }
  if s1.wsAttached then
    { s1 with wsAttached := false, socketLive := false,
              closePending := s1.closePending || s1.socketLive }
  else s1

/-- Callback `ws.onclose`: clears the heartbeat, dispatches
`setConnectionState('reconnecting')`, and calls `scheduleReconnect()`. The
handler consults no disconnected-flag, so it runs the same way when the
close was caused by `disconnect()`. -/
def oncloseFired (s : WebSocketClient) : WebSocketClient :=
  if s.closePending then
    scheduleReconnect
      { clearHeartbeat s with
          closePending := false, socketLive := false,
          redux := Store.setConnectionState s.redux Store.ConnectionState.reconnecting }
  else s

/-- Callback of the heartbeat timeout armed by `resetHeartbeat()`: when it
fires (only possible while armed), it sends `{type: 'ping'}` if an open
socket is attached, and does nothing else — no dispatch, no reconnect
scheduling. Returns the new state and whether a ping was sent. -/
def heartbeatFired (s : WebSocketClient) : WebSocketClient × Bool :=
  if s.heartbeatTimer then
    ({ s with heartbeatTimer := false }, s.wsAttached && s.socketLive)
  else (s, false)

/-- Branch of the `ws.onmessage` handler for `data.type === 'newMessage'`:
dispatches `updateChatLastMessage`, then either appends the message to the
view (selected chat) or dispatches `updateChatUnreadCount` with
`state.chats.items.find(c => c.id === data.chatId)?.unreadCount || 0 + 1`,
which JavaScript operator precedence parses as `(... ?.unreadCount) || 1`.
The unread lookup reads the state captured before the dispatches. -/
def onNewMessage (chats : List Store.Chat) (selectedId : Option String)
    (messages : List Store.Message) (e : Websocket.NewMessageEvent) :
    List Store.Chat × List Store.Message :=
  let chats1 := Store.updateChatLastMessage chats e.chatId e.ts
  if selectedId = some e.chatId then
    (chats1, messages ++ [{ id := e.messageId, chatId := e.chatId, ts := e.ts,
                            sender := e.sender, body := e.body }])
  else
    (Store.updateChatUnreadCount chats1 e.chatId
      (jsNumOr ((chats.find? (fun c => c.id == e.chatId)).map
        (fun c => c.unreadCount)) (0 + 1)),
     messages)

end Hooks

/-- Shape in which a chat row crosses the IPC boundary to the renderer
(the SELECT list of `getChats` / the `Chat` interface of the store). -/
def Database.Chat.toStore (c : Database.Chat) : Store.Chat :=
  { id := c.id, title := c.title, lastMessageAt := c.lastMessageAt,
    unreadCount := c.unreadCount }

/-- Shape in which a message row crosses the IPC boundary to the renderer. -/
def Database.Message.toStore (m : Database.Message) : Store.Message :=
  { id := m.id, chatId := m.chatId, ts := m.ts, sender := m.sender, body := m.body }

/-- Lexicographic strict order on strings as character lists (code-point
order, agreeing with the usual string order). -/
def strBefore : List Char → List Char → Bool
  | [], [] => false
  | [], _ :: _ => true
  | _ :: _, [] => false
  | a :: as, b :: bs => a < b || (a == b && strBefore as bs)

/-- Comparator claimed by spec §4.1 for the chat list, stated from the
spec's words for comparison with the query's actual output:
`lastMessageAt` descending with ties broken by `id` ascending. -/
def specChatBefore (a b : Database.Chat) : Prop :=
  b.lastMessageAt < a.lastMessageAt ∨
    (a.lastMessageAt = b.lastMessageAt ∧ strBefore a.id.data b.id.data = true)

instance (a b : Database.Chat) : Decidable (specChatBefore a b) := by
  unfold specChatBefore
  infer_instance

-- Concrete fixtures used by witnesses and counterexamples.

/-- Chat row with a nonzero unread count and `lastMessageAt = 100`. -/
def exampleChat : Database.Chat :=
  { id := "c1", title := "Chat 1", lastMessageAt := 100, unreadCount := 5, createdAt := 0 }

/-- Database holding `exampleChat` and no messages. -/
def exampleDB : Database.DB := { chats := [exampleChat], messages := [] }

/-- Message row of chat `c1`. -/
def exampleMessage : Database.Message :=
  { id := "m0", chatId := "c1", ts := 10, sender := "Alice", body := "hi", createdAt := 10 }

/-- Database holding `exampleChat` and `exampleMessage`. -/
def searchExampleDB : Database.DB := { chats := [exampleChat], messages := [exampleMessage] }

/-- Chat inserted first, with the lexicographically larger id. -/
def tieChatB : Database.Chat :=
  { id := "b", title := "B", lastMessageAt := 100, unreadCount := 0, createdAt := 0 }

/-- Chat inserted second, with the lexicographically smaller id. -/
def tieChatA : Database.Chat :=
  { id := "a", title := "A", lastMessageAt := 100, unreadCount := 0, createdAt := 0 }

/-- Database with two chats sharing one `lastMessageAt`, in insertion order
`[b, a]`. -/
def tieDB : Database.DB := { chats := [tieChatB, tieChatA], messages := [] }

/-- Client waiting in `reconnecting` with `i` failed attempts so far and no
armed timers. -/
def clientAtAttempt (i : Nat) : Hooks.WebSocketClient :=
  { wsAttached := false, socketLive := false, closePending := false,
    heartbeatTimer := false, reconnectTimer := none, reconnectAttempt := i,
    redux := { state := Store.ConnectionState.reconnecting, reconnectAttempt := i,
               backoffDelay := 1000 } }

/-- Healthy connected client: open socket, armed heartbeat, no pending
reconnect, zero failed attempts. -/
def connectedClient : Hooks.WebSocketClient :=
  { wsAttached := true, socketLive := true, closePending := false,
    heartbeatTimer := true, reconnectTimer := none, reconnectAttempt := 0,
    redux := { state := Store.ConnectionState.connected, reconnectAttempt := 0,
               backoffDelay := 1000 } }

/-- Deterministic stand-in for the seeding randomness. -/
def trivialSeedRand : Database.SeedRand :=
  { chatUuid := fun i => "chat-" ++ toString i,
    msgUuid := fun i j => "msg-" ++ toString i ++ "-" ++ toString j,
    extraMsgs := fun _ => 0,
    senderIdx := fun _ _ => 0,
    bodyIdx := fun _ _ => 0,
    tsBack := fun _ _ => 0 }

/-- Deterministic stand-in for the process's uuidv4 stream. -/
def uuidStream : Nat → String := fun n => "uuid-" ++ toString n

/-- Initial state of the `chats` slice. -/
def emptyChatsSlice : Store.ChatsSliceState :=
  { items := [], selectedId := none, isLoading := false, offset := 0, hasMore := true }

/-- Initial state of the `messages` slice. -/
def emptyMessagesSlice : Store.MessagesSliceState :=
  { items := [], isLoading := false, offset := 0, hasMore := true }

/-- Renderer-side chat entry with a nonzero tracked unread count. -/
def unreadFiveChat : Store.Chat :=
  { id := "c1", title := "T", lastMessageAt := 0, unreadCount := 5 }

/-- Renderer-side chat entry with a zero tracked unread count. -/
def unreadZeroChat : Store.Chat :=
  { id := "c1", title := "T", lastMessageAt := 0, unreadCount := 0 }

/-- Incoming `NewMessage` event for chat `c1`. -/
def eventForC1 : Websocket.NewMessageEvent :=
  { chatId := "c1", messageId := "m9", ts := 10, sender := "Alice", body := "hey" }

-- Helper lemmas about the embedded operations.

theorem find?_map_eq (f : α → α) (p : α → Bool) (h : ∀ a, p (f a) = p a) :
    ∀ l : List α, (l.map f).find? p = (l.find? p).map f := by
  intro l
  induction l with
  | nil => rfl
  | cons a l ih =>
      rw [List.map_cons]
      cases hpa : p a with
      | true =>
          rw [List.find?_cons_of_pos _ ((h a).trans hpa),
              List.find?_cons_of_pos _ hpa]
          rfl
      | false =>
          rw [List.find?_cons_of_neg _ (by rw [h a, hpa]; exact Bool.false_ne_true),
              List.find?_cons_of_neg _ (by rw [hpa]; exact Bool.false_ne_true), ih]

namespace Database

theorem insertMessageRow_eq_of_fresh (db : DB) (chatId sender body : String)
    (ts : Int) (newId : String) (now : Int) (hfresh : freshMessageId db newId) :
    insertMessageRow db chatId sender body ts newId now =
      some { db with messages :=
        db.messages ++ [{ id := newId, chatId := chatId, ts := ts, sender := sender,
                          body := body, createdAt := now }] } := by
  unfold insertMessageRow
  rw [if_neg]
  rw [List.any_eq_true]
  rintro ⟨m, hm, hid⟩
  exact hfresh m hm (by simpa using hid)

theorem addMessage_eq_of_fresh (db : DB) (chatId sender body : String)
    (ts : Int) (newId : String) (now : Int) (hfresh : freshMessageId db newId) :
    addMessage db chatId sender body ts newId now =
      updateChatOnMessage (insertOnlyState db chatId sender body ts newId now) chatId ts := by
  unfold addMessage
  rw [insertMessageRow_eq_of_fresh db chatId sender body ts newId now hfresh]
  rfl

theorem messages_addMessage_of_fresh (db : DB) (chatId sender body : String)
    (ts : Int) (newId : String) (now : Int) (hfresh : freshMessageId db newId) :
    (addMessage db chatId sender body ts newId now).messages =
      db.messages ++ [{ id := newId, chatId := chatId, ts := ts, sender := sender,
                        body := body, createdAt := now }] := by
  rw [addMessage_eq_of_fresh db chatId sender body ts newId now hfresh]
  rfl

theorem chatById_addMessage_of_fresh (db : DB) (chatId sender body : String)
    (ts : Int) (newId : String) (now : Int) (c : Chat)
    (hc : chatById db chatId = some c) (hfresh : freshMessageId db newId) :
    chatById (addMessage db chatId sender body ts newId now) chatId =
      some { c with lastMessageAt := ts, unreadCount := c.unreadCount + 1 } := by
  rw [addMessage_eq_of_fresh db chatId sender body ts newId now hfresh]
  unfold chatById at hc ⊢
  have hpc := List.find?_some hc
  unfold updateChatOnMessage insertOnlyState
  rw [show ({ db with messages :=
        db.messages ++ [{ id := newId, chatId := chatId, ts := ts, sender := sender,
                          body := body, createdAt := now }] } : DB).chats = db.chats from rfl]
  rw [find?_map_eq _ _ (fun a => by by_cases ha : a.id == chatId <;> simp [ha]) db.chats]
  rw [hc]
  simp only [Option.map_some']
  rw [if_pos hpc]

end Database

/-- C1: `insertMessage` (addMessage) is atomic — at every interruption point
of the call, a reader observes either the pre-call database (with no trace
of the new message) or the fully committed database (new message row present
and the chat's `lastMessageAt`/`unreadCount` updated together); the
partially-applied state with the row inserted but the chat untouched is
never observable. -/
theorem addMessage_atomic (db : Database.DB) (chatId sender body : String)
    (ts : Int) (newId : String) (now : Int) (c : Database.Chat)
    (hc : Database.chatById db chatId = some c)
    (hfresh : Database.freshMessageId db newId) (stop : Database.TxStop) :
    ((Database.addMessageObservable db chatId sender body ts newId now stop = db ∧
      ¬ ∃ m ∈ (Database.addMessageObservable db chatId sender body ts newId now stop).messages,
          m.id = newId) ∨
     (Database.addMessageObservable db chatId sender body ts newId now stop =
        Database.addMessage db chatId sender body ts newId now ∧
      (∃ m ∈ (Database.addMessageObservable db chatId sender body ts newId now stop).messages,
          m.id = newId) ∧
      Database.chatById (Database.addMessageObservable db chatId sender body ts newId now stop)
          chatId =
        some { c with lastMessageAt := ts, unreadCount := c.unreadCount + 1 })) ∧
    Database.addMessageObservable db chatId sender body ts newId now stop ≠
      Database.insertOnlyState db chatId sender body ts newId now := by
  have hnotpartial : db ≠ Database.insertOnlyState db chatId sender body ts newId now := by
    intro heq
    have hlen := congrArg (fun d => d.messages.length) heq
    simp [Database.insertOnlyState] at hlen
  have hrolled :
      ¬ ∃ m ∈ db.messages, m.id = newId := by
    rintro ⟨m, hm, hid⟩
    exact hfresh m hm hid
  cases stop with
  | beforeInsert => exact ⟨Or.inl ⟨rfl, hrolled⟩, hnotpartial⟩
  | betweenStatements => exact ⟨Or.inl ⟨rfl, hrolled⟩, hnotpartial⟩
  | committed =>
      refine ⟨Or.inr ⟨rfl, ?_, ?_⟩, ?_⟩
      · show ∃ m ∈ (Database.addMessage db chatId sender body ts newId now).messages, m.id = newId
        rw [Database.messages_addMessage_of_fresh db chatId sender body ts newId now hfresh]
        exact ⟨_, List.mem_append_right _ (List.mem_singleton.mpr rfl), rfl⟩
      · exact Database.chatById_addMessage_of_fresh db chatId sender body ts newId now c hc hfresh
      · show Database.addMessage db chatId sender body ts newId now ≠
          Database.insertOnlyState db chatId sender body ts newId now
        intro heq
        have h2 := Database.chatById_addMessage_of_fresh db chatId sender body ts newId now c
          hc hfresh
        rw [heq] at h2
        have h1 : Database.chatById
            (Database.insertOnlyState db chatId sender body ts newId now) chatId = some c := hc
        rw [h1] at h2
        have h3 : c = { c with lastMessageAt := ts, unreadCount := c.unreadCount + 1 } :=
          Option.some.inj h2
        have h4 := congrArg Database.Chat.unreadCount h3
        simp at h4

/-- C1 witness: on a concrete database the call interrupted between the two
statements observes no partially-applied state. -/
theorem addMessage_atomic_witness :
    Database.chatById exampleDB "c1" = some exampleChat ∧
    Database.freshMessageId exampleDB "m1" ∧
    Database.addMessageObservable exampleDB "c1" "Bob" "hello" 50 "m1" 50
        Database.TxStop.betweenStatements ≠
      Database.insertOnlyState exampleDB "c1" "Bob" "hello" 50 "m1" 50 :=
  ⟨by decide, by decide,
   (addMessage_atomic exampleDB "c1" "Bob" "hello" 50 "m1" 50 exampleChat (by decide) (by decide)
     Database.TxStop.betweenStatements).2⟩

/-- C2 counterexample: inserting into a chat whose `lastMessageAt` is 100 a
message with the older timestamp 50 leaves `lastMessageAt = 50`, not
`max 100 50 = 100` — the `UPDATE` sets the column unconditionally, so it
decreases. -/
theorem addMessage_lastMessageAt_can_decrease :
    (Database.chatById (Database.addMessage exampleDB "c1" "Bob" "old" 50 "m1" 50) "c1").map
        (fun c => c.lastMessageAt) = some 50 ∧
    ¬ ((Database.chatById (Database.addMessage exampleDB "c1" "Bob" "old" 50 "m1" 50) "c1").map
        (fun c => c.lastMessageAt) = some (max 100 50)) := by
  decide

/-- C2 amended: for every call on an existing chat, the chat's
`lastMessageAt` afterwards equals the inserted `ts` (set unconditionally —
it may decrease when `ts` is older than the current value) and its
`unreadCount` is incremented by exactly 1. -/
theorem addMessage_sets_ts_increments_unread (db : Database.DB)
    (chatId sender body : String) (ts : Int) (newId : String) (now : Int)
    (c : Database.Chat) (hc : Database.chatById db chatId = some c)
    (hfresh : Database.freshMessageId db newId) :
    Database.chatById (Database.addMessage db chatId sender body ts newId now) chatId =
      some { c with lastMessageAt := ts, unreadCount := c.unreadCount + 1 } :=
  Database.chatById_addMessage_of_fresh db chatId sender body ts newId now c hc hfresh

/-- C2 witness: concrete evaluation of the amended claim. -/
theorem addMessage_sets_ts_increments_unread_witness :
    Database.chatById exampleDB "c1" = some exampleChat ∧
    Database.freshMessageId exampleDB "m1" ∧
    Database.chatById (Database.addMessage exampleDB "c1" "Bob" "old" 50 "m1" 50) "c1" =
      some { exampleChat with lastMessageAt := 50, unreadCount := exampleChat.unreadCount + 1 } :=
  ⟨by decide, by decide,
   addMessage_sets_ts_increments_unread exampleDB "c1" "Bob" "old" 50 "m1" 50 exampleChat
     (by decide) (by decide)⟩

/-- C4: for every attempt number `n ∈ [1, 10]` (so the pre-call counter is
`n - 1`), `scheduleReconnect` arms the retry timer with delay
`min(1000 * 2^(n-1), 30000)` and the dispatched `incrementReconnectAttempt`
stores the same value as `backoffDelay`; the resulting delays for attempts
1..10 are exactly 1000, 2000, 4000, 8000, 16000, 30000, 30000, 30000,
30000, 30000. -/
theorem scheduleReconnect_backoff (s : Hooks.WebSocketClient) (n : Nat)
    (h1 : 1 ≤ n) (h2 : n ≤ 10)
    (ha : s.reconnectAttempt = n - 1) (hr : s.redux.reconnectAttempt = n - 1) :
    (Hooks.scheduleReconnect s).reconnectTimer = some (min (1000 * 2 ^ (n - 1)) 30000) ∧
    (Hooks.scheduleReconnect s).redux.backoffDelay = min (1000 * 2 ^ (n - 1)) 30000 ∧
    (Hooks.scheduleReconnect s).redux.reconnectAttempt = n ∧
    (List.range 10).map (fun i =>
        ((Hooks.scheduleReconnect (clientAtAttempt i)).reconnectTimer,
         (Hooks.scheduleReconnect (clientAtAttempt i)).redux.backoffDelay)) =
      [(some 1000, 1000), (some 2000, 2000), (some 4000, 4000), (some 8000, 8000),
       (some 16000, 16000), (some 30000, 30000), (some 30000, 30000), (some 30000, 30000),
       (some 30000, 30000), (some 30000, 30000)] := by
  have hlt : ¬ (Hooks.maxReconnectAttempts ≤ n - 1) := by
    unfold Hooks.maxReconnectAttempts
    omega
  refine ⟨?_, ?_, ?_, by decide⟩
  · simp [Hooks.scheduleReconnect, ha, hlt]
  · simp [Hooks.scheduleReconnect, ha, hlt, Store.incrementReconnectAttempt, hr]
  · simp [Hooks.scheduleReconnect, ha, hlt, Store.incrementReconnectAttempt, hr]
    omega

/-- C4 witness: attempt 6 gets the capped 30000 ms delay. -/
theorem scheduleReconnect_backoff_witness :
    1 ≤ 6 ∧ 6 ≤ 10 ∧
    (Hooks.scheduleReconnect (clientAtAttempt 5)).reconnectTimer =
      some (min (1000 * 2 ^ (6 - 1)) 30000) :=
  ⟨by decide, by decide,
   (scheduleReconnect_backoff (clientAtAttempt 5) 6 (by decide) (by decide) (by decide)
     (by decide)).1⟩

/-- C5 (code bug): `disconnect()` on a connected client never dispatches
`'offline'` — the connection state stays `'connected'` — and the close event
of the socket it just closed still fires the installed `onclose` handler,
which dispatches `'reconnecting'` and schedules a 1000 ms reconnection
attempt; so an explicit disconnect is neither an `Offline` transition nor
terminal. -/
theorem disconnect_then_close_reconnects :
    (Hooks.disconnect connectedClient).redux.state = Store.ConnectionState.connected ∧
    (Hooks.disconnect connectedClient).redux.state ≠ Store.ConnectionState.offline ∧
    (Hooks.oncloseFired (Hooks.disconnect connectedClient)).redux.state =
      Store.ConnectionState.reconnecting ∧
    (Hooks.oncloseFired (Hooks.disconnect connectedClient)).reconnectTimer = some 1000 ∧
    (Hooks.oncloseFired (Hooks.disconnect connectedClient)).reconnectAttempt = 1 := by
  decide

/-- C3 counterexample: two chats sharing one `lastMessageAt`, inserted in
the order `[id "b", id "a"]`, are returned by `getChats` in that rowid
order — the query has no id tie-break, so the output violates the spec's
"ties broken by id ascending" comparator. -/
theorem getChats_ties_not_id_ascending :
    (Database.getChats tieDB 50 0).map (fun c => c.id) = ["b", "a"] ∧
    ¬ (Database.getChats tieDB 50 0).Pairwise specChatBefore := by
  decide

/-- C3 amended: `getChats` and `getMessages` return at most `limit` rows,
sorted by `lastMessageAt` (resp. `ts`) descending — tie order among equal
keys is the table's rowid order, not id-ascending — and an offset at or
beyond the available rows yields the empty result, for which the renderer's
reducer computes `hasMore = false`. -/
theorem list_queries_pagination (db : Database.DB) (chatId : String)
    (limit offset : Nat) (cs : Store.ChatsSliceState) (ms : Store.MessagesSliceState) :
    (Database.getChats db limit offset).length ≤ limit ∧
    (Database.getChats db limit offset).Pairwise (keyDesc (fun c => c.lastMessageAt)) ∧
    (Database.getMessages db chatId limit offset).length ≤ limit ∧
    (Database.getMessages db chatId limit offset).Pairwise (keyDesc (fun m => m.ts)) ∧
    (db.chats.length ≤ offset →
      Database.getChats db limit offset = [] ∧
      (Store.appendChats cs
        ((Database.getChats db limit offset).map Database.Chat.toStore)).hasMore = false) ∧
    ((db.messages.filter (fun m => m.chatId == chatId)).length ≤ offset →
      Database.getMessages db chatId limit offset = [] ∧
      (Store.prependMessages ms
        ((Database.getMessages db chatId limit offset).map Database.Message.toStore)).hasMore
        = false) := by
  refine ⟨?_, ?_, ?_, ?_, ?_, ?_⟩
  · unfold Database.getChats
    rw [List.length_take]
    exact min_le_left _ _
  · unfold Database.getChats
    exact List.Pairwise.sublist ((List.take_sublist _ _).trans (List.drop_sublist _ _))
      (sortByDesc_pairwise _ _)
  · unfold Database.getMessages
    rw [List.length_take]
    exact min_le_left _ _
  · unfold Database.getMessages
    exact List.Pairwise.sublist ((List.take_sublist _ _).trans (List.drop_sublist _ _))
      (sortByDesc_pairwise _ _)
  · intro h
    have hnil : Database.getChats db limit offset = [] := by
      unfold Database.getChats
      rw [List.drop_eq_nil_of_le (by rw [sortByDesc_length]; exact h), List.take_nil]
    refine ⟨hnil, ?_⟩
    rw [hnil]
    rfl
  · intro h
    have hnil : Database.getMessages db chatId limit offset = [] := by
      unfold Database.getMessages
      rw [List.drop_eq_nil_of_le (by rw [sortByDesc_length]; exact h), List.take_nil]
    refine ⟨hnil, ?_⟩
    rw [hnil]
    rfl

/-- C3 witness: an offset past the two available rows yields the empty page
and `hasMore = false`. -/
theorem list_queries_pagination_witness :
    tieDB.chats.length ≤ 5 ∧
    Database.getChats tieDB 10 5 = [] ∧
    (Store.appendChats emptyChatsSlice
      ((Database.getChats tieDB 10 5).map Database.Chat.toStore)).hasMore = false :=
  ⟨by decide,
   (list_queries_pagination tieDB "c1" 10 5 emptyChatsSlice emptyMessagesSlice).2.2.2.2.1
     (by decide)⟩

/-- C6 counterexample: on a connected client whose heartbeat window has
elapsed with no inbound event, the timer callback sends a ping and nothing
else — the state stays `'connected'` (it does not become `'reconnecting'`)
and no reconnection attempt is scheduled. -/
theorem heartbeat_window_no_reconnect :
    (Hooks.heartbeatFired connectedClient).1.redux.state = Store.ConnectionState.connected ∧
    (Hooks.heartbeatFired connectedClient).1.redux.state ≠ Store.ConnectionState.reconnecting ∧
    (Hooks.heartbeatFired connectedClient).1.reconnectTimer = none ∧
    (Hooks.heartbeatFired connectedClient).2 = true := by
  decide

/-- C6 amended: when the heartbeat window elapses without inbound traffic,
the client sends a `Ping` over the socket (iff the timer was armed and an
open socket is attached) and remains `Connected`; no state transition and no
reconnection scheduling occur. -/
theorem heartbeatFired_sends_ping_keeps_connected (s : Hooks.WebSocketClient)
    (h : s.redux.state = Store.ConnectionState.connected) :
    (Hooks.heartbeatFired s).1.redux.state = Store.ConnectionState.connected ∧
    (Hooks.heartbeatFired s).1.reconnectTimer = s.reconnectTimer ∧
    (Hooks.heartbeatFired s).1.reconnectAttempt = s.reconnectAttempt ∧
    (Hooks.heartbeatFired s).2 = (s.heartbeatTimer && (s.wsAttached && s.socketLive)) := by
  unfold Hooks.heartbeatFired
  cases hb : s.heartbeatTimer <;> simp [hb, h]

/-- C6 witness: concrete evaluation of the amended claim on the connected
client. -/
theorem heartbeatFired_sends_ping_keeps_connected_witness :
    connectedClient.redux.state = Store.ConnectionState.connected ∧
    (Hooks.heartbeatFired connectedClient).1.redux.state =
      Store.ConnectionState.connected ∧
    (Hooks.heartbeatFired connectedClient).1.reconnectTimer =
      connectedClient.reconnectTimer :=
  ⟨by decide,
   (heartbeatFired_sends_ping_keeps_connected connectedClient (by decide)).1,
   (heartbeatFired_sends_ping_keeps_connected connectedClient (by decide)).2.1⟩

/-- C7 counterexample: the empty query turns the pattern into `'%%'`, which
matches every body — on a chat with one message, `searchMessages` returns
that message rather than no results. -/
theorem searchMessages_empty_query_returns_all :
    Database.searchMessages searchExampleDB "c1" "" = [exampleMessage] ∧
    Database.searchMessages searchExampleDB "c1" "" ≠ [] := by
  decide

/-- C7 amended: `searchMessages(chatId, q)` returns only messages of the
given chat whose body matches the pattern `'%' || q || '%'` under SQLite
`LIKE` semantics — for `q` free of the wildcards `%` and `_` this means the
body contains `q` case-insensitively — capped at the fixed limit 50; the
empty query's pattern `'%%'` matches every body, so it returns the chat's
messages (newest first, up to the cap) rather than none. -/
theorem searchMessages_restricts_and_caps (db : Database.DB) (chatId q : String) :
    (∀ m ∈ Database.searchMessages db chatId q,
      m.chatId = chatId ∧ sqliteLike m.body ("%" ++ q ++ "%") = true ∧
      (wildcardFree q = true → containsCI m.body q = true)) ∧
    (Database.searchMessages db chatId q).length ≤ 50 ∧
    Database.searchMessages db chatId "" =
      (sortByDesc (fun m => m.ts)
        (db.messages.filter (fun m => m.chatId == chatId))).take 50 := by
  refine ⟨?_, ?_, ?_⟩
  · intro m hm
    unfold Database.searchMessages at hm
    have hm2 : m ∈ db.messages.filter
        (fun m => m.chatId == chatId && sqliteLike m.body ("%" ++ q ++ "%")) :=
      (mem_sortByDesc _).mp (List.take_subset _ _ hm)
    have hp := (List.mem_filter.mp hm2).2
    rw [Bool.and_eq_true] at hp
    exact ⟨by simpa using hp.1, hp.2,
      fun hq => sqliteLike_literal_contains m.body q hq hp.2⟩
  · unfold Database.searchMessages
    rw [List.length_take]
    exact min_le_left _ _
  · unfold Database.searchMessages
    congr 2
    exact List.filter_congr (fun m _ => by rw [sqliteLike_empty_query, Bool.and_true])

/-- C7 witness: a concrete case-insensitive hit (wildcard-free query "HI"
found in body "hi"), restricted to the chat and under the cap. -/
theorem searchMessages_restricts_and_caps_witness :
    exampleMessage ∈ Database.searchMessages searchExampleDB "c1" "HI" ∧
    wildcardFree "HI" = true ∧
    (exampleMessage.chatId = "c1" ∧ containsCI exampleMessage.body "HI" = true) ∧
    (Database.searchMessages searchExampleDB "c1" "HI").length ≤ 50 :=
  ⟨by decide, by decide,
   ⟨((searchMessages_restricts_and_caps searchExampleDB "c1" "HI").1 exampleMessage
      (by decide)).1,
    ((searchMessages_restricts_and_caps searchExampleDB "c1" "HI").1 exampleMessage
      (by decide)).2.2 (by decide)⟩,
   (searchMessages_restricts_and_caps searchExampleDB "c1" "HI").2.1⟩

/-- C8 (code bug): `seedData` — the operation exposed by the `db:seedData`
IPC handler and invoked by the renderer on every startup — contains no
emptiness guard: a second call on an already-seeded store inserts another
200 chats (200 then 400). The count-query guard lives only in
`initializeDatabase`, which is idempotent. -/
theorem seedData_second_call_duplicates :
    (Database.seedData Database.emptyDB trivialSeedRand 1000).chats.length = 200 ∧
    (Database.seedData (Database.seedData Database.emptyDB trivialSeedRand 1000)
        trivialSeedRand 1000).chats.length = 400 ∧
    Database.initializeDatabase
        (Database.initializeDatabase Database.emptyDB trivialSeedRand 1000)
        trivialSeedRand 1000 =
      Database.initializeDatabase Database.emptyDB trivialSeedRand 1000 := by
  have h1 : Database.initializeDatabase Database.emptyDB trivialSeedRand 1000 =
      Database.seedData Database.emptyDB trivialSeedRand 1000 := by
    unfold Database.initializeDatabase
    rw [if_pos (show Database.emptyDB.chats.length = 0 from rfl)]
  refine ⟨?_, ?_, ?_⟩
  · rw [Database.seedData_chats_length]
    rfl
  · rw [Database.seedData_chats_length, Database.seedData_chats_length]
    rfl
  · rw [h1]
    unfold Database.initializeDatabase
    rw [if_neg (by rw [Database.seedData_chats_length]; simp [Database.emptyDB])]

/-- C9 counterexample: on a concrete tick the broadcast carries
`messageId = "uuid-0"`, drawn by the emitter, while `addMessage` stored the
row under its own next uuid `"uuid-1"`; after the tick no message with the
broadcast id exists in the store. -/
theorem emitterTick_broadcast_id_not_in_store :
    (Websocket.emitterTick exampleDB uuidStream 0 "c1" 0 0 1000).2.messageId = "uuid-0" ∧
    ((Websocket.emitterTick exampleDB uuidStream 0 "c1" 0 0 1000).1.messages.map
      (fun m => m.id)) = ["uuid-1"] ∧
    ((Websocket.emitterTick exampleDB uuidStream 0 "c1" 0 0 1000).1.messages.all
      (fun m => !(m.id == "uuid-0"))) = true := by
  decide

/-- C9 amended: the broadcast `NewMessage` carries the tick's
chatId/ts/sender/body, which match the row `addMessage` inserted, but its
`messageId` is a uuid drawn independently of `addMessage` (which returns
nothing): the stored row's id is the next uuid of the stream, and no row
with the broadcast `messageId` exists after the tick. -/
theorem emitterTick_broadcast_fields (db : Database.DB) (uuid : Nat → String)
    (k : Nat) (chatId : String) (si bi : Nat) (now : Int)
    (hfresh : Database.freshMessageId db (uuid (k + 1)))
    (hfresh0 : Database.freshMessageId db (uuid k))
    (hneq : uuid k ≠ uuid (k + 1)) :
    (Websocket.emitterTick db uuid k chatId si bi now).2.chatId = chatId ∧
    (Websocket.emitterTick db uuid k chatId si bi now).2.ts = now ∧
    (Websocket.emitterTick db uuid k chatId si bi now).2.messageId = uuid k ∧
    (Websocket.emitterTick db uuid k chatId si bi now).1.messages =
      db.messages ++
        [{ id := uuid (k + 1), chatId := chatId, ts := now,
           sender := (Websocket.emitterTick db uuid k chatId si bi now).2.sender,
           body := (Websocket.emitterTick db uuid k chatId si bi now).2.body,
           createdAt := now }] ∧
    (∀ m ∈ (Websocket.emitterTick db uuid k chatId si bi now).1.messages,
      m.id ≠ (Websocket.emitterTick db uuid k chatId si bi now).2.messageId) := by
  have hmsg := Database.messages_addMessage_of_fresh db chatId
    (Websocket.senders.getD si "") (Websocket.messageTexts.getD bi "") now
    (uuid (k + 1)) now hfresh
  refine ⟨rfl, rfl, rfl, hmsg, ?_⟩
  intro m hm
  have hm2 : m ∈ db.messages ++
      [{ id := uuid (k + 1), chatId := chatId, ts := now,
         sender := Websocket.senders.getD si "",
         body := Websocket.messageTexts.getD bi "", createdAt := now }] := by
    rw [← hmsg]
    exact hm
  show m.id ≠ uuid k
  rcases List.mem_append.mp hm2 with hold | hnew
  · exact hfresh0 m hold
  · rw [List.mem_singleton.mp hnew]
    exact fun h => hneq h.symm

/-- C9 witness: concrete evaluation of the amended claim. -/
theorem emitterTick_broadcast_fields_witness :
    Database.freshMessageId exampleDB (uuidStream (0 + 1)) ∧
    Database.freshMessageId exampleDB (uuidStream 0) ∧
    uuidStream 0 ≠ uuidStream (0 + 1) ∧
    (Websocket.emitterTick exampleDB uuidStream 0 "c1" 0 0 1000).2.messageId = uuidStream 0 :=
  ⟨by decide, by decide, by decide,
   (emitterTick_broadcast_fields exampleDB uuidStream 0 "c1" 0 0 1000 (by decide) (by decide)
     (by decide)).2.2.1⟩

/-- C10 (code bug): a `NewMessage` for a non-selected chat whose tracked
unread count is 5 leaves the count at 5 instead of 6 — the handler computes
`find(...)?.unreadCount || 0 + 1`, which operator precedence parses as
`(find(...)?.unreadCount) || 1`, dispatching any nonzero count unchanged (a
zero count does become 1). -/
theorem unreadCount_not_incremented :
    ((Hooks.onNewMessage [unreadFiveChat] (some "c2") [] eventForC1).1.find?
        (fun c => c.id == "c1")).map (fun c => c.unreadCount) = some 5 ∧
    ¬ (((Hooks.onNewMessage [unreadFiveChat] (some "c2") [] eventForC1).1.find?
        (fun c => c.id == "c1")).map (fun c => c.unreadCount) = some 6) ∧
    ((Hooks.onNewMessage [unreadZeroChat] (some "c2") [] eventForC1).1.find?
        (fun c => c.id == "c1")).map (fun c => c.unreadCount) = some 1 := by
  decide

end SecureMessenger
